import Mathlib

/-!
Shallow embedding of the group-savings subsystem of the Nestera contract
(`src/contracts/src/group.rs`), together with proofs about its operations.

The persistent key-value store is modelled by association lists, one per
key space (`DataKey::GroupSave`, `DataKey::UserGroupMembership`,
`DataKey::GroupMemberContribution`, `DataKey::GroupIdCounter`).  Addresses
are opaque and modelled by `Nat`.  Machine integers are modelled by
`Nat`/`Int`: `i128` arithmetic uses an explicit bounds check mirroring
`checked_add`, and unchecked `u32`/`u64` additions are taken modulo the
word size.  Host authorization (`require_auth`) is an external collaborator
and is not modelled; the functions here model the post-authorization
behaviour of each call.
-/

namespace Nestera

/-- Addresses are opaque identifiers. -/
abbrev Address := Nat

def u32Size : Nat := 2 ^ 32
def u64Size : Nat := 2 ^ 64
def i128Min : Int := -(2 ^ 127)
def i128Max : Int := 2 ^ 127 - 1

/-- `i128::checked_add`: `some` of the mathematical sum when it fits in
a signed 128-bit integer, `none` on overflow. -/
def i128CheckedAdd (a b : Int) : Option Int :=
  if i128Min ≤ a + b ∧ a + b ≤ i128Max then some (a + b) else none

/-- Modelled from the spec: the error taxonomy of §7 (`errors.rs` is not
part of the provided sources; only the variants used by `group.rs` and the
account-ledger checks are included). -/
inductive SavingsError where
  | UserNotFound
  | UserAlreadyExists
  | PlanNotFound
  | InvalidAmount
  | InvalidGroupConfig
  | GroupFull
  | NotGroupMember
  | Overflow
deriving Repr, DecidableEq

/-- The `GroupSave` record stored under `DataKey::GroupSave(group_id)`
(from `storage_types.rs`, field-for-field as constructed and used in
`group.rs`). -/
structure GroupSave where
  group_id : Nat
  is_public : Bool
  target_amount : Int
  current_amount : Int
  member_count : Nat
  max_members : Nat
  contribution_type : Nat
  creator : Address
  is_completed : Bool
  created_at : Nat
deriving Repr, DecidableEq

section Store

variable {κ : Type} {α : Type} [DecidableEq κ]

/-- `storage().get(&key)` over an association-list store. -/
def getKey : List (κ × α) → κ → Option α
  | [], _ => none
  | (k', v) :: t, k => if k' = k then some v else getKey t k

/-- `storage().set(&key, &value)`: replaces the binding if present,
otherwise appends a fresh one. -/
def setKey : List (κ × α) → κ → α → List (κ × α)
  | [], k, v => [(k, v)]
  | (k', v') :: t, k, v =>
      if k' = k then (k, v) :: t else (k', v') :: setKey t k v

/-- `storage().has(&key)`. -/
def hasKey (l : List (κ × α)) (k : κ) : Bool :=
  (getKey l k).isSome

end Store

/-- The persistent store, one component per key space touched by
`group.rs`, plus the user registry consumed through `users::user_exists`
and the host clock read by `env.ledger().timestamp()`. -/
structure State where
  users : List Address
  groups : List (Nat × GroupSave)
  membership : List ((Address × Nat) × Bool)
  contributions : List ((Nat × Address) × Int)
  groupIdCounter : Option Nat
  now : Nat
deriving Repr, DecidableEq

/-- Modelled from the spec: `users::user_exists` (§4.1, "pure existence
check, no authorization required"; `users.rs` is not part of the provided
sources). -/
def user_exists (s : State) (user : Address) : Bool :=
  s.users.contains user

/-- `join_group_save` from `group.rs`.  Returns the store after the call
together with the call's result; storage writes performed before an early
return would survive in the returned store, so non-mutation on failure is
a theorem about this definition, not a modelling assumption. -/
def join_group_save (s : State) (user : Address) (group_id : Nat) :
    State × Except SavingsError Unit :=
  -- 1. Ensure user exists
  if !user_exists s user then (s, .error .UserNotFound)
  else
    -- 2. Fetch the GroupSave by group_id
    match getKey s.groups group_id with
    | none => (s, .error .PlanNotFound)
    | some group =>
      -- 3. Validate that the group is public
      if !group.is_public then (s, .error .NotGroupMember)
      -- 4. Check if group is full
      else if group.member_count ≥ group.max_members then (s, .error .GroupFull)
      -- 5. Check if user is already a member
      else if hasKey s.membership (user, group_id) then (s, .error .UserAlreadyExists)
      else
        -- 6. Mark user as member with 0 initial contribution
        let s₁ := { s with contributions := setKey s.contributions (group_id, user) 0 }
        -- 7. Increment member_count (unchecked u32 addition)
        let group₁ := { group with member_count := (group.member_count + 1) % u32Size }
        -- 8. Update group in storage
        let s₂ := { s₁ with groups := setKey s₁.groups group_id group₁ }
        -- 9. Update UserGroupMembership for the user
        let s₃ := { s₂ with membership := setKey s₂.membership (user, group_id) true }
        (s₃, .ok ())

/-- `contribute_to_group_save` from `group.rs`. -/
def contribute_to_group_save (s : State) (user : Address) (group_id : Nat)
    (amount : Int) : State × Except SavingsError Unit :=
  -- 1. Validate amount > 0
  if amount ≤ 0 then (s, .error .InvalidAmount)
  -- 2. Ensure user exists
  else if !user_exists s user then (s, .error .UserNotFound)
  -- 3. Ensure user is a member of the group
  else if !hasKey s.membership (user, group_id) then (s, .error .NotGroupMember)
  else
    -- 4. Fetch the GroupSave
    match getKey s.groups group_id with
    | none => (s, .error .PlanNotFound)
    | some group =>
      -- 5. Update current_amount of the group (checked_add)
      match i128CheckedAdd group.current_amount amount with
      | none => (s, .error .Overflow)
      | some newAmount =>
        let group₁ := { group with current_amount := newAmount }
        -- 6. Update member's contribution (checked_add)
        let current_contribution := (getKey s.contributions (group_id, user)).getD 0
        match i128CheckedAdd current_contribution amount with
        | none => (s, .error .Overflow)
        | some newContribution =>
          let s₁ :=
            { s with contributions := setKey s.contributions (group_id, user) newContribution }
          -- 7. Check if current_amount >= target_amount and mark is_completed
          let group₂ :=
            if group₁.current_amount ≥ group₁.target_amount then
              { group₁ with is_completed := true }
            else group₁
          -- 8. Update group in storage
          let s₂ := { s₁ with groups := setKey s₁.groups group_id group₂ }
          (s₂, .ok ())

/-- `get_group` from `group.rs`. -/
def get_group (s : State) (group_id : Nat) : Except SavingsError GroupSave :=
  match getKey s.groups group_id with
  | none => .error .PlanNotFound
  | some group => .ok group

/-- `get_member_contribution` from `group.rs`: the stored accumulator, or
0 when no record exists. -/
def get_member_contribution (s : State) (group_id : Nat) (user : Address) : Int :=
  (getKey s.contributions (group_id, user)).getD 0

/-- `is_group_member` from `group.rs`: existence check of the membership
key. -/
def is_group_member (s : State) (user : Address) (group_id : Nat) : Bool :=
  hasKey s.membership (user, group_id)

/-- `create_group_save` from `group.rs`. -/
def create_group_save (s : State) (creator : Address) (is_public : Bool)
    (target_amount : Int) (max_members : Nat) (contribution_type : Nat) :
    State × Except SavingsError Nat :=
  -- Validate target amount
  if target_amount ≤ 0 then (s, .error .InvalidAmount)
  -- Validate max_members
  else if max_members = 0 then (s, .error .InvalidGroupConfig)
  -- Ensure creator exists
  else if !user_exists s creator then (s, .error .UserNotFound)
  else
    -- Get or initialize group ID counter (unchecked u64 addition)
    let group_id := (s.groupIdCounter.getD 0 + 1) % u64Size
    -- Update counter
    let s₁ := { s with groupIdCounter := some group_id }
    -- Create the group
    let group : GroupSave :=
      { group_id := group_id
        is_public := is_public
        target_amount := target_amount
        current_amount := 0
        member_count := 1  -- Creator is the first member
        max_members := max_members
        contribution_type := contribution_type
        creator := creator
        is_completed := false
        created_at := s.now }
    -- Store the group
    let s₂ := { s₁ with groups := setKey s₁.groups group_id group }
    -- Add creator as first member
    let s₃ := { s₂ with contributions := setKey s₂.contributions (group_id, creator) 0 }
    let s₄ := { s₃ with membership := setKey s₃.membership (creator, group_id) true }
    (s₄, .ok group_id)

/-- Sum of all `GroupMemberContribution` accumulators recorded for a given
group id. -/
def contribSum : List ((Nat × Address) × Int) → Nat → Int
  | [], _ => 0
  | (k, v) :: t, g => (if k.1 = g then v else 0) + contribSum t g

/-- One externally invokable group operation, with argument ranges given
by the Rust parameter types (`i128`, `u32`, `u64`; addresses opaque). -/
inductive Step : State → State → Prop
  | create (s : State) (creator : Address) (is_public : Bool)
      (target_amount : Int) (max_members contribution_type : Nat)
      (ht₁ : i128Min ≤ target_amount) (ht₂ : target_amount ≤ i128Max)
      (hm : max_members < u32Size) (hc : contribution_type < u32Size) :
      Step s (create_group_save s creator is_public target_amount
        max_members contribution_type).1
  | join (s : State) (user : Address) (group_id : Nat)
      (hg : group_id < u64Size) :
      Step s (join_group_save s user group_id).1
  | contribute (s : State) (user : Address) (group_id : Nat) (amount : Int)
      (hg : group_id < u64Size)
      (ha₁ : i128Min ≤ amount) (ha₂ : amount ≤ i128Max) :
      Step s (contribute_to_group_save s user group_id amount).1

/-- A store holding an arbitrary user registry and no group-subsystem data:
the state before any group operation has run. -/
def initState (users : List Address) (now : Nat) : State :=
  { users := users, groups := [], membership := [], contributions := [],
    groupIdCounter := none, now := now }

/-- States reachable from an initial state by exactly `n` group
operations. -/
inductive ReachableN : Nat → State → Prop
  | init (users : List Address) (now : Nat) : ReachableN 0 (initState users now)
  | step {n : Nat} {s s' : State} (h : ReachableN n s) (hs : Step s s') :
      ReachableN (n + 1) s'

/-- The value of the `GroupIdCounter` key, 0 when absent (the
`unwrap_or(0)` read in `create_group_save`). -/
def counterVal (s : State) : Nat :=
  s.groupIdCounter.getD 0

section StoreLemmas

variable {κ : Type} {α : Type} [DecidableEq κ]

theorem getKey_setKey (l : List (κ × α)) (k k' : κ) (v : α) :
    getKey (setKey l k v) k' = if k = k' then some v else getKey l k' := by
  induction l with
  | nil => simp [setKey, getKey]
  | cons e t ih =>
    obtain ⟨ek, ev⟩ := e
    by_cases h1 : ek = k
    · subst h1
      by_cases h2 : ek = k' <;> simp [setKey, getKey, h2]
    · by_cases h2 : k = k' <;> by_cases h3 : ek = k' <;>
        simp_all [setKey, getKey]

theorem getKey_setKey_self (l : List (κ × α)) (k : κ) (v : α) :
    getKey (setKey l k v) k = some v := by
  simp [getKey_setKey]

theorem getKey_setKey_ne (l : List (κ × α)) {k k' : κ} (v : α) (h : k ≠ k') :
    getKey (setKey l k v) k' = getKey l k' := by
  simp [getKey_setKey, h]

theorem hasKey_setKey (l : List (κ × α)) (k k' : κ) (v : α) :
    hasKey (setKey l k v) k' = (decide (k = k') || hasKey l k') := by
  by_cases h : k = k' <;> simp [hasKey, getKey_setKey, h]

theorem mem_setKey {l : List (κ × α)} {k : κ} {v : α} {e : κ × α}
    (h : e ∈ setKey l k v) : e ∈ l ∨ e = (k, v) := by
  induction l with
  | nil => simpa [setKey] using h
  | cons e' t ih =>
    obtain ⟨ek, ev⟩ := e'
    by_cases h1 : ek = k
    · subst h1
      rcases (by simpa [setKey] using h : e = (ek, v) ∨ e ∈ t) with h2 | h2
      · exact Or.inr h2
      · exact Or.inl (List.mem_cons_of_mem _ h2)
    · rcases (by simpa [setKey, h1] using h : e = (ek, ev) ∨ e ∈ setKey t k v) with h2 | h2
      · exact Or.inl (by simp [h2])
      · rcases ih h2 with h3 | h3
        · exact Or.inl (List.mem_cons_of_mem _ h3)
        · exact Or.inr h3

theorem getKey_some_mem {l : List (κ × α)} {k : κ} {v : α}
    (h : getKey l k = some v) : (k, v) ∈ l := by
  induction l with
  | nil => simp [getKey] at h
  | cons e t ih =>
    obtain ⟨ek, ev⟩ := e
    by_cases h1 : ek = k
    · subst h1
      simp [getKey] at h
      simp [h]
    · simp [getKey, h1] at h
      exact List.mem_cons_of_mem _ (ih h)

theorem getKey_eq_none {l : List (κ × α)} {k : κ}
    (h : ∀ e ∈ l, e.1 ≠ k) : getKey l k = none := by
  induction l with
  | nil => simp [getKey]
  | cons e t ih =>
    obtain ⟨ek, ev⟩ := e
    have h1 : ek ≠ k := h (ek, ev) (List.mem_cons_self _ _)
    simp only [getKey, if_neg h1]
    exact ih fun e he => h e (List.mem_cons_of_mem _ he)

end StoreLemmas

theorem contribSum_setKey_ne (l : List ((Nat × Address) × Int))
    (k : Nat × Address) (v : Int) {g : Nat} (h : k.1 ≠ g) :
    contribSum (setKey l k v) g = contribSum l g := by
  induction l with
  | nil => simp [setKey, contribSum, h]
  | cons e t ih =>
    obtain ⟨ek, ev⟩ := e
    by_cases h1 : ek = k
    · subst h1
      simp [setKey, contribSum, h]
    · simp [setKey, contribSum, h1, ih]

theorem contribSum_setKey_none (l : List ((Nat × Address) × Int))
    (k : Nat × Address) (v : Int) (g : Nat) (h : getKey l k = none) :
    contribSum (setKey l k v) g = contribSum l g + (if k.1 = g then v else 0) := by
  induction l with
  | nil => simp [setKey, contribSum]
  | cons e t ih =>
    obtain ⟨ek, ev⟩ := e
    by_cases h1 : ek = k
    · simp [getKey, h1] at h
    · simp only [getKey, if_neg h1] at h
      simp only [setKey, if_neg h1, contribSum, ih h]
      ring

theorem contribSum_setKey_some (l : List ((Nat × Address) × Int))
    (k : Nat × Address) (v old : Int) (g : Nat) (h : getKey l k = some old) :
    contribSum (setKey l k v) g =
      contribSum l g + (if k.1 = g then v - old else 0) := by
  induction l with
  | nil => simp [getKey] at h
  | cons e t ih =>
    obtain ⟨ek, ev⟩ := e
    by_cases h1 : ek = k
    · subst h1
      simp [getKey] at h
      subst h
      simp only [setKey, if_pos rfl, contribSum]
      by_cases h2 : ek.1 = g
      · simp [h2]
        ring
      · simp [h2]
    · simp only [getKey, if_neg h1] at h
      simp only [setKey, if_neg h1, contribSum, ih h]
      ring

theorem contribSum_eq_zero (l : List ((Nat × Address) × Int)) (g : Nat)
    (h : ∀ e ∈ l, e.1.1 ≠ g) : contribSum l g = 0 := by
  induction l with
  | nil => rfl
  | cons e t ih =>
    have h1 : e.1.1 ≠ g := h e (List.mem_cons_self _ _)
    simp only [contribSum, if_neg h1]
    rw [ih fun e he => h e (List.mem_cons_of_mem _ he)]
    ring

section JoinLemmas

variable {s : State} {user : Address} {group_id : Nat} {group : GroupSave}

theorem join_err_user (hu : user_exists s user = false) :
    join_group_save s user group_id = (s, .error .UserNotFound) := by
  simp [join_group_save, hu]

theorem join_err_nogroup (hu : user_exists s user = true)
    (hg : getKey s.groups group_id = none) :
    join_group_save s user group_id = (s, .error .PlanNotFound) := by
  simp [join_group_save, hu, hg]

theorem join_err_private (hu : user_exists s user = true)
    (hg : getKey s.groups group_id = some group)
    (hp : group.is_public = false) :
    join_group_save s user group_id = (s, .error .NotGroupMember) := by
  simp [join_group_save, hu, hg, hp]

theorem join_err_full (hu : user_exists s user = true)
    (hg : getKey s.groups group_id = some group)
    (hp : group.is_public = true)
    (hf : group.max_members ≤ group.member_count) :
    join_group_save s user group_id = (s, .error .GroupFull) := by
  simp [join_group_save, hu, hg, hp, hf]

theorem join_err_member (hu : user_exists s user = true)
    (hg : getKey s.groups group_id = some group)
    (hp : group.is_public = true)
    (hf : group.member_count < group.max_members)
    (hm : hasKey s.membership (user, group_id) = true) :
    join_group_save s user group_id = (s, .error .UserAlreadyExists) := by
  simp [join_group_save, hu, hg, hp, Nat.not_le.mpr hf, hm]

theorem join_ok (hu : user_exists s user = true)
    (hg : getKey s.groups group_id = some group)
    (hp : group.is_public = true)
    (hf : group.member_count < group.max_members)
    (hm : hasKey s.membership (user, group_id) = false) :
    join_group_save s user group_id =
      ({ s with
          contributions := setKey s.contributions (group_id, user) 0
          groups := setKey s.groups group_id
            { group with member_count := (group.member_count + 1) % u32Size }
          membership := setKey s.membership (user, group_id) true },
        .ok ()) := by
  simp [join_group_save, hu, hg, hp, Nat.not_le.mpr hf, hm]

end JoinLemmas

section ContributeLemmas

variable {s : State} {user : Address} {group_id : Nat} {amount : Int}
  {group : GroupSave}

theorem contribute_err_amount (ha : amount ≤ 0) :
    contribute_to_group_save s user group_id amount = (s, .error .InvalidAmount) := by
  simp [contribute_to_group_save, ha]

theorem contribute_err_user (ha : 0 < amount)
    (hu : user_exists s user = false) :
    contribute_to_group_save s user group_id amount = (s, .error .UserNotFound) := by
  simp [contribute_to_group_save, Int.not_le.mpr ha, hu]

theorem contribute_err_member (ha : 0 < amount)
    (hu : user_exists s user = true)
    (hm : hasKey s.membership (user, group_id) = false) :
    contribute_to_group_save s user group_id amount = (s, .error .NotGroupMember) := by
  simp [contribute_to_group_save, Int.not_le.mpr ha, hu, hm]

theorem contribute_err_nogroup (ha : 0 < amount)
    (hu : user_exists s user = true)
    (hm : hasKey s.membership (user, group_id) = true)
    (hg : getKey s.groups group_id = none) :
    contribute_to_group_save s user group_id amount = (s, .error .PlanNotFound) := by
  simp [contribute_to_group_save, Int.not_le.mpr ha, hu, hm, hg]

theorem contribute_err_overflow_group (ha : 0 < amount)
    (hu : user_exists s user = true)
    (hm : hasKey s.membership (user, group_id) = true)
    (hg : getKey s.groups group_id = some group)
    (ho : i128CheckedAdd group.current_amount amount = none) :
    contribute_to_group_save s user group_id amount = (s, .error .Overflow) := by
  simp [contribute_to_group_save, Int.not_le.mpr ha, hu, hm, hg, ho]

theorem contribute_err_overflow_member (ha : 0 < amount)
    (hu : user_exists s user = true)
    (hm : hasKey s.membership (user, group_id) = true)
    (hg : getKey s.groups group_id = some group)
    {newAmount : Int}
    (ho : i128CheckedAdd group.current_amount amount = some newAmount)
    (ho' : i128CheckedAdd ((getKey s.contributions (group_id, user)).getD 0) amount = none) :
    contribute_to_group_save s user group_id amount = (s, .error .Overflow) := by
  simp [contribute_to_group_save, Int.not_le.mpr ha, hu, hm, hg, ho, ho']

theorem contribute_ok (ha : 0 < amount)
    (hu : user_exists s user = true)
    (hm : hasKey s.membership (user, group_id) = true)
    (hg : getKey s.groups group_id = some group)
    {newAmount newContribution : Int}
    (ho : i128CheckedAdd group.current_amount amount = some newAmount)
    (ho' : i128CheckedAdd ((getKey s.contributions (group_id, user)).getD 0) amount =
      some newContribution) :
    contribute_to_group_save s user group_id amount =
      ({ s with
          contributions := setKey s.contributions (group_id, user) newContribution
          groups := setKey s.groups group_id
            (if newAmount ≥ group.target_amount then
              { group with current_amount := newAmount, is_completed := true }
            else
              { group with current_amount := newAmount }) },
        .ok ()) := by
  by_cases hc : newAmount ≥ group.target_amount <;>
    simp [contribute_to_group_save, Int.not_le.mpr ha, hu, hm, hg, ho, ho', hc]

end ContributeLemmas

section CreateLemmas

variable {s : State} {creator : Address} {is_public : Bool}
  {target_amount : Int} {max_members contribution_type : Nat}

theorem create_err_target (ht : target_amount ≤ 0) :
    create_group_save s creator is_public target_amount max_members contribution_type =
      (s, .error .InvalidAmount) := by
  simp [create_group_save, ht]

theorem create_err_config (ht : 0 < target_amount) (hm : max_members = 0) :
    create_group_save s creator is_public target_amount max_members contribution_type =
      (s, .error .InvalidGroupConfig) := by
  simp [create_group_save, Int.not_le.mpr ht, hm]

theorem create_err_user (ht : 0 < target_amount) (hm : max_members ≠ 0)
    (hu : user_exists s creator = false) :
    create_group_save s creator is_public target_amount max_members contribution_type =
      (s, .error .UserNotFound) := by
  simp [create_group_save, Int.not_le.mpr ht, hm, hu]

end CreateLemmas

/-- The group id allocated by a successful `create_group_save` from state
`s`: the counter's value (0 when absent) plus one, as an unchecked `u64`
addition. -/
def newGroupId (s : State) : Nat :=
  (counterVal s + 1) % u64Size

/-- The `GroupSave` record stored by a successful `create_group_save`. -/
def createdGroup (s : State) (creator : Address) (is_public : Bool)
    (target_amount : Int) (max_members contribution_type : Nat) : GroupSave :=
  { group_id := newGroupId s, is_public := is_public,
    target_amount := target_amount, current_amount := 0,
    member_count := 1, max_members := max_members,
    contribution_type := contribution_type, creator := creator,
    is_completed := false, created_at := s.now }

theorem create_ok {s : State} {creator : Address} {is_public : Bool}
    {target_amount : Int} {max_members contribution_type : Nat}
    (ht : 0 < target_amount) (hm : max_members ≠ 0)
    (hu : user_exists s creator = true) :
    create_group_save s creator is_public target_amount max_members contribution_type =
      ({ s with
          groupIdCounter := some (newGroupId s)
          groups := setKey s.groups (newGroupId s)
            (createdGroup s creator is_public target_amount max_members contribution_type)
          contributions := setKey s.contributions (newGroupId s, creator) 0
          membership := setKey s.membership (creator, newGroupId s) true },
        .ok (newGroupId s)) := by
  simp [create_group_save, Int.not_le.mpr ht, hm, hu, counterVal, newGroupId, createdGroup]

theorem i128CheckedAdd_some {a b c : Int} (h : i128CheckedAdd a b = some c) :
    c = a + b := by
  unfold i128CheckedAdd at h
  split at h
  · exact (Option.some.injEq _ _ ▸ h).symm
  · exact absurd h (by simp)

/-- The storage invariant maintained by the group operations: group ids
are allocated from the counter, membership and contribution keys exist in
lockstep, each group's `current_amount` is the sum of the recorded
contribution accumulators for its id, capacity bounds hold, and a
completed group has reached its target. -/
structure WF (s : State) : Prop where
  groups_bound : ∀ e ∈ s.groups, 1 ≤ e.1 ∧ e.1 ≤ counterVal s
  contrib_bound : ∀ e ∈ s.contributions, 1 ≤ e.1.1 ∧ e.1.1 ≤ counterVal s
  memb_iff_contrib : ∀ u g,
    hasKey s.membership (u, g) = hasKey s.contributions (g, u)
  sum_inv : ∀ g grp, getKey s.groups g = some grp →
    grp.current_amount = contribSum s.contributions g
  mc_le : ∀ g grp, getKey s.groups g = some grp →
    grp.member_count ≤ grp.max_members
  max_pos : ∀ g grp, getKey s.groups g = some grp → 0 < grp.max_members
  max_lt : ∀ g grp, getKey s.groups g = some grp → grp.max_members < u32Size
  completed_target : ∀ g grp, getKey s.groups g = some grp →
    grp.is_completed = true → grp.target_amount ≤ grp.current_amount
  contrib_nonneg : ∀ e ∈ s.contributions, 0 ≤ e.2

theorem wf_init (users : List Address) (now : Nat) : WF (initState users now) := by
  constructor <;> simp [initState, getKey, hasKey, counterVal]

theorem wf_join {s : State} (hwf : WF s) (user : Address) (group_id : Nat) :
    WF (join_group_save s user group_id).1 := by
  by_cases hu : user_exists s user
  case neg => rw [join_err_user (by simpa using hu)]; exact hwf
  rcases hg : getKey s.groups group_id with _ | group
  · rw [join_err_nogroup hu hg]; exact hwf
  by_cases hp : group.is_public
  case neg => rw [join_err_private hu hg (by simpa using hp)]; exact hwf
  by_cases hf : group.member_count < group.max_members
  case neg => rw [join_err_full hu hg hp (Nat.not_lt.mp hf)]; exact hwf
  by_cases hm : hasKey s.membership (user, group_id)
  · rw [join_err_member hu hg hp hf hm]; exact hwf
  rw [join_ok hu hg hp hf (by simpa using hm)]
  have hgb := hwf.groups_bound _ (getKey_some_mem hg)
  have hmc1 : group.member_count + 1 < u32Size :=
    lt_of_le_of_lt (Nat.succ_le_of_lt hf) (hwf.max_lt _ _ hg)
  have hmod : (group.member_count + 1) % u32Size = group.member_count + 1 :=
    Nat.mod_eq_of_lt hmc1
  have hcnone : getKey s.contributions (group_id, user) = none := by
    have h1 := hwf.memb_iff_contrib user group_id
    rw [(by simpa using hm : hasKey s.membership (user, group_id) = false)] at h1
    cases ho : getKey s.contributions (group_id, user) with
    | none => rfl
    | some v => rw [hasKey, ho] at h1; simp at h1
  constructor
  · intro e he
    rcases mem_setKey he with h1 | h1
    · exact hwf.groups_bound e h1
    · subst h1; exact hgb
  · intro e he
    rcases mem_setKey he with h1 | h1
    · exact hwf.contrib_bound e h1
    · subst h1; exact hgb
  · intro u g
    by_cases h1 : user = u <;> by_cases h2 : group_id = g <;>
      simp [hasKey_setKey, Prod.ext_iff, h1, h2, hwf.memb_iff_contrib u g]
  · intro g grp hget
    by_cases h1 : group_id = g
    · subst h1
      rw [getKey_setKey_self] at hget
      rw [contribSum_setKey_none _ _ _ _ hcnone]
      cases hget
      simpa using hwf.sum_inv _ _ hg
    · rw [getKey_setKey_ne _ _ h1] at hget
      rw [contribSum_setKey_ne _ _ _ (by simpa using h1)]
      exact hwf.sum_inv _ _ hget
  · intro g grp hget
    by_cases h1 : group_id = g
    · subst h1
      rw [getKey_setKey_self] at hget
      cases hget
      simpa [hmod] using Nat.succ_le_of_lt hf
    · rw [getKey_setKey_ne _ _ h1] at hget
      exact hwf.mc_le _ _ hget
  · intro g grp hget
    by_cases h1 : group_id = g
    · subst h1
      rw [getKey_setKey_self] at hget
      cases hget
      simpa using hwf.max_pos _ _ hg
    · rw [getKey_setKey_ne _ _ h1] at hget
      exact hwf.max_pos _ _ hget
  · intro g grp hget
    by_cases h1 : group_id = g
    · subst h1
      rw [getKey_setKey_self] at hget
      cases hget
      simpa using hwf.max_lt _ _ hg
    · rw [getKey_setKey_ne _ _ h1] at hget
      exact hwf.max_lt _ _ hget
  · intro g grp hget hcomp
    by_cases h1 : group_id = g
    · subst h1
      rw [getKey_setKey_self] at hget
      cases hget
      simpa using hwf.completed_target _ _ hg (by simpa using hcomp)
    · rw [getKey_setKey_ne _ _ h1] at hget
      exact hwf.completed_target _ _ hget hcomp
  · intro e he
    rcases mem_setKey he with h1 | h1
    · exact hwf.contrib_nonneg e h1
    · subst h1; simp

theorem wf_contribute {s : State} (hwf : WF s) (user : Address) (group_id : Nat)
    (amount : Int) :
    WF (contribute_to_group_save s user group_id amount).1 := by
  by_cases ha : amount ≤ 0
  · rw [contribute_err_amount ha]; exact hwf
  have ha' : 0 < amount := Int.not_le.mp ha
  by_cases hu : user_exists s user
  case neg => rw [contribute_err_user ha' (by simpa using hu)]; exact hwf
  by_cases hm : hasKey s.membership (user, group_id)
  case neg => rw [contribute_err_member ha' hu (by simpa using hm)]; exact hwf
  rcases hg : getKey s.groups group_id with _ | group
  · rw [contribute_err_nogroup ha' hu hm hg]; exact hwf
  rcases ho : i128CheckedAdd group.current_amount amount with _ | newAmount
  · rw [contribute_err_overflow_group ha' hu hm hg ho]; exact hwf
  rcases ho' : i128CheckedAdd ((getKey s.contributions (group_id, user)).getD 0) amount
    with _ | newContribution
  · rw [contribute_err_overflow_member ha' hu hm hg ho ho']; exact hwf
  rw [contribute_ok ha' hu hm hg ho ho']
  obtain ⟨old, hold⟩ : ∃ old, getKey s.contributions (group_id, user) = some old := by
    have h1 := hwf.memb_iff_contrib user group_id
    rw [hm] at h1
    exact Option.isSome_iff_exists.mp h1.symm
  have hnewA : newAmount = group.current_amount + amount := i128CheckedAdd_some ho
  have hnewC : newContribution = old + amount := by
    rw [hold] at ho'
    simpa using i128CheckedAdd_some ho'
  have hgb := hwf.groups_bound _ (getKey_some_mem hg)
  have hcb := hwf.contrib_bound _ (getKey_some_mem hold)
  constructor
  · intro e he
    rcases mem_setKey he with h1 | h1
    · exact hwf.groups_bound e h1
    · subst h1; exact hgb
  · intro e he
    rcases mem_setKey he with h1 | h1
    · exact hwf.contrib_bound e h1
    · subst h1; exact hcb
  · intro u g
    by_cases h1 : user = u
    · by_cases h2 : group_id = g
      · subst h1; subst h2
        simp [hasKey_setKey, hm]
      · simp [hasKey_setKey, Prod.ext_iff, h2, hwf.memb_iff_contrib u g]
    · simp [hasKey_setKey, Prod.ext_iff, h1, hwf.memb_iff_contrib u g]
  · intro g grp hget
    by_cases h1 : group_id = g
    · subst h1
      rw [getKey_setKey_self] at hget
      cases hget
      rw [contribSum_setKey_some _ _ _ _ _ hold]
      have hs := hwf.sum_inv _ _ hg
      by_cases hcc : newAmount ≥ group.target_amount <;> simp [hcc] <;> omega
    · rw [getKey_setKey_ne _ _ h1] at hget
      rw [contribSum_setKey_ne _ _ _ (by simpa using h1)]
      exact hwf.sum_inv _ _ hget
  · intro g grp hget
    by_cases h1 : group_id = g
    · subst h1
      rw [getKey_setKey_self] at hget
      cases hget
      by_cases hcc : newAmount ≥ group.target_amount <;>
        simpa [hcc] using hwf.mc_le _ _ hg
    · rw [getKey_setKey_ne _ _ h1] at hget
      exact hwf.mc_le _ _ hget
  · intro g grp hget
    by_cases h1 : group_id = g
    · subst h1
      rw [getKey_setKey_self] at hget
      cases hget
      by_cases hcc : newAmount ≥ group.target_amount <;>
        simpa [hcc] using hwf.max_pos _ _ hg
    · rw [getKey_setKey_ne _ _ h1] at hget
      exact hwf.max_pos _ _ hget
  · intro g grp hget
    by_cases h1 : group_id = g
    · subst h1
      rw [getKey_setKey_self] at hget
      cases hget
      by_cases hcc : newAmount ≥ group.target_amount <;>
        simpa [hcc] using hwf.max_lt _ _ hg
    · rw [getKey_setKey_ne _ _ h1] at hget
      exact hwf.max_lt _ _ hget
  · intro g grp hget hcomp
    by_cases h1 : group_id = g
    · subst h1
      rw [getKey_setKey_self] at hget
      cases hget
      by_cases hcc : newAmount ≥ group.target_amount
      · simp [hcc]
      · simp [hcc] at hcomp ⊢
        have := hwf.completed_target _ _ hg hcomp
        omega
    · rw [getKey_setKey_ne _ _ h1] at hget
      exact hwf.completed_target _ _ hget hcomp
  · intro e he
    rcases mem_setKey he with h1 | h1
    · exact hwf.contrib_nonneg e h1
    · subst h1
      have hoc := hwf.contrib_nonneg _ (getKey_some_mem hold)
      simp only at hoc ⊢
      omega

theorem wf_create {s : State} (hwf : WF s) (hcnt : counterVal s + 1 < u64Size)
    (creator : Address) (is_public : Bool) (target_amount : Int)
    {max_members : Nat} (hmm : max_members < u32Size) (contribution_type : Nat) :
    WF (create_group_save s creator is_public target_amount
      max_members contribution_type).1 := by
  by_cases ht : target_amount ≤ 0
  · rw [create_err_target ht]; exact hwf
  have ht' : 0 < target_amount := Int.not_le.mp ht
  by_cases hm0 : max_members = 0
  · rw [create_err_config ht' hm0]; exact hwf
  by_cases hu : user_exists s creator
  case neg => rw [create_err_user ht' hm0 (by simpa using hu)]; exact hwf
  rw [create_ok ht' hm0 hu]
  have hgid : newGroupId s = counterVal s + 1 := Nat.mod_eq_of_lt hcnt
  have hfresh : ∀ e ∈ s.contributions, e.1.1 ≠ newGroupId s := by
    intro e he
    have := hwf.contrib_bound e he
    omega
  have hcnone : getKey s.contributions (newGroupId s, creator) = none := by
    apply getKey_eq_none
    intro e he h1
    exact hfresh e he (by rw [h1])
  have hczero : contribSum s.contributions (newGroupId s) = 0 :=
    contribSum_eq_zero _ _ hfresh
  constructor
  · intro e he
    rcases mem_setKey he with h1 | h1
    · have := hwf.groups_bound e h1
      simp only [counterVal, Option.getD_some]
      omega
    · subst h1
      simp only [counterVal, Option.getD_some]
      omega
  · intro e he
    rcases mem_setKey he with h1 | h1
    · have := hwf.contrib_bound e h1
      simp only [counterVal, Option.getD_some]
      omega
    · subst h1
      simp only [counterVal, Option.getD_some]
      omega
  · intro u g
    by_cases h1 : creator = u
    · by_cases h2 : newGroupId s = g
      · subst h1; subst h2
        simp [hasKey_setKey]
      · simp [hasKey_setKey, Prod.ext_iff, h2, hwf.memb_iff_contrib u g]
    · simp [hasKey_setKey, Prod.ext_iff, h1, hwf.memb_iff_contrib u g]
  · intro g grp hget
    by_cases h1 : newGroupId s = g
    · subst h1
      rw [getKey_setKey_self] at hget
      cases hget
      rw [contribSum_setKey_none _ _ _ _ hcnone]
      simp [createdGroup, hczero]
    · rw [getKey_setKey_ne _ _ h1] at hget
      rw [contribSum_setKey_ne _ _ _ (by simpa using h1)]
      exact hwf.sum_inv _ _ hget
  · intro g grp hget
    by_cases h1 : newGroupId s = g
    · subst h1
      rw [getKey_setKey_self] at hget
      cases hget
      simpa [createdGroup] using Nat.one_le_iff_ne_zero.mpr hm0
    · rw [getKey_setKey_ne _ _ h1] at hget
      exact hwf.mc_le _ _ hget
  · intro g grp hget
    by_cases h1 : newGroupId s = g
    · subst h1
      rw [getKey_setKey_self] at hget
      cases hget
      simpa [createdGroup] using Nat.pos_of_ne_zero hm0
    · rw [getKey_setKey_ne _ _ h1] at hget
      exact hwf.max_pos _ _ hget
  · intro g grp hget
    by_cases h1 : newGroupId s = g
    · subst h1
      rw [getKey_setKey_self] at hget
      cases hget
      simpa [createdGroup] using hmm
    · rw [getKey_setKey_ne _ _ h1] at hget
      exact hwf.max_lt _ _ hget
  · intro g grp hget hcomp
    by_cases h1 : newGroupId s = g
    · subst h1
      rw [getKey_setKey_self] at hget
      cases hget
      simp [createdGroup] at hcomp
    · rw [getKey_setKey_ne _ _ h1] at hget
      exact hwf.completed_target _ _ hget hcomp
  · intro e he
    rcases mem_setKey he with h1 | h1
    · exact hwf.contrib_nonneg e h1
    · subst h1; simp

theorem groupIdCounter_join (s : State) (user : Address) (group_id : Nat) :
    (join_group_save s user group_id).1.groupIdCounter = s.groupIdCounter := by
  unfold join_group_save
  repeat' split
  all_goals rfl

theorem groupIdCounter_contribute (s : State) (user : Address) (group_id : Nat)
    (amount : Int) :
    (contribute_to_group_save s user group_id amount).1.groupIdCounter =
      s.groupIdCounter := by
  by_cases ha : amount ≤ 0
  · rw [contribute_err_amount ha]
  have ha' : 0 < amount := Int.not_le.mp ha
  by_cases hu : user_exists s user
  case neg => rw [contribute_err_user ha' (by simpa using hu)]
  by_cases hm : hasKey s.membership (user, group_id)
  case neg => rw [contribute_err_member ha' hu (by simpa using hm)]
  rcases hg : getKey s.groups group_id with _ | group
  · rw [contribute_err_nogroup ha' hu hm hg]
  rcases ho : i128CheckedAdd group.current_amount amount with _ | newAmount
  · rw [contribute_err_overflow_group ha' hu hm hg ho]
  rcases ho' : i128CheckedAdd ((getKey s.contributions (group_id, user)).getD 0) amount
    with _ | newContribution
  · rw [contribute_err_overflow_member ha' hu hm hg ho ho']
  rw [contribute_ok ha' hu hm hg ho ho']

theorem counterVal_create_le (s : State) (creator : Address) (is_public : Bool)
    (target_amount : Int) (max_members contribution_type : Nat) :
    counterVal (create_group_save s creator is_public target_amount
      max_members contribution_type).1 ≤ counterVal s + 1 := by
  unfold create_group_save
  repeat' split
  · exact Nat.le_succ _
  · exact Nat.le_succ _
  · exact Nat.le_succ _
  · simpa [counterVal] using Nat.mod_le _ _

theorem counterVal_step {s s' : State} (h : Step s s') :
    counterVal s' ≤ counterVal s + 1 := by
  cases h with
  | create creator is_public target_amount max_members contribution_type =>
      exact counterVal_create_le ..
  | join user group_id =>
      rw [counterVal, groupIdCounter_join]
      exact Nat.le_succ _
  | contribute user group_id amount =>
      rw [counterVal, groupIdCounter_contribute]
      exact Nat.le_succ _

theorem counterVal_reachable {n : Nat} {s : State} (h : ReachableN n s) :
    counterVal s ≤ n := by
  induction h with
  | init users now => simp [counterVal, initState]
  | step h hs ih =>
      have := counterVal_step hs
      omega

theorem wf_step {s s' : State} (hwf : WF s) (hcnt : counterVal s + 1 < u64Size)
    (h : Step s s') : WF s' := by
  cases h with
  | create creator is_public target_amount max_members contribution_type ht₁ ht₂ hm hc =>
      exact wf_create hwf hcnt creator is_public target_amount hm contribution_type
  | join user group_id hg => exact wf_join hwf user group_id
  | contribute user group_id amount hg ha₁ ha₂ =>
      exact wf_contribute hwf user group_id amount

/-- Every state reachable by fewer than `2^64` group operations satisfies
the storage invariant (the bound keeps the `u64` group-id counter from
wrapping; it cannot be hit, since each operation increments the counter by
at most one). -/
theorem wf_reachable {n : Nat} {s : State} (h : ReachableN n s)
    (hn : n < u64Size) : WF s := by
  induction h with
  | init users now => exact wf_init users now
  | step h hs ih =>
      refine wf_step (ih (by omega)) ?_ hs
      have := counterVal_reachable h
      omega

theorem contribSum_nonneg (l : List ((Nat × Address) × Int)) (g : Nat)
    (h : ∀ e ∈ l, 0 ≤ e.2) : 0 ≤ contribSum l g := by
  induction l with
  | nil => simp [contribSum]
  | cons e t ih =>
    have h1 := h e (List.mem_cons_self _ _)
    have h2 := ih fun e he => h e (List.mem_cons_of_mem _ he)
    simp only [contribSum]
    by_cases h3 : e.1.1 = g <;> simp [h3] <;> omega

theorem current_nonneg {s : State} (hwf : WF s) {g : Nat} {grp : GroupSave}
    (hg : getKey s.groups g = some grp) : 0 ≤ grp.current_amount := by
  rw [hwf.sum_inv g grp hg]
  exact contribSum_nonneg _ _ hwf.contrib_nonneg

theorem i128CheckedAdd_eq_some {a b : Int} (h1 : i128Min ≤ a + b)
    (h2 : a + b ≤ i128Max) : i128CheckedAdd a b = some (a + b) := by
  simp [i128CheckedAdd, h1, h2]

/-- Any single operation from a well-formed state keeps a completed
group's flag set (contribute never clears it, join copies it, and create
never overwrites an existing group because fresh ids exceed every stored
id). -/
theorem completed_mono_step {s s' : State} (hwf : WF s)
    (hcnt : counterVal s + 1 < u64Size) (hstep : Step s s') {g : Nat}
    {grp : GroupSave} (hg : getKey s.groups g = some grp)
    (hc : grp.is_completed = true) :
    ∃ grp', getKey s'.groups g = some grp' ∧ grp'.is_completed = true := by
  cases hstep with
  | create creator is_public target_amount max_members contribution_type ht₁ ht₂ hmx hct =>
    by_cases ht : target_amount ≤ 0
    · rw [create_err_target ht]; exact ⟨grp, hg, hc⟩
    have ht' : 0 < target_amount := Int.not_le.mp ht
    by_cases hm0 : max_members = 0
    · rw [create_err_config ht' hm0]; exact ⟨grp, hg, hc⟩
    by_cases hu : user_exists s creator
    case neg => rw [create_err_user ht' hm0 (by simpa using hu)]; exact ⟨grp, hg, hc⟩
    rw [create_ok ht' hm0 hu]
    have hgb : g ≤ counterVal s := (hwf.groups_bound _ (getKey_some_mem hg)).2
    have hgid : newGroupId s = counterVal s + 1 := Nat.mod_eq_of_lt hcnt
    have hne : newGroupId s ≠ g := by omega
    exact ⟨grp, by rw [getKey_setKey_ne _ _ hne]; exact hg, hc⟩
  | join user group_id hgl =>
    by_cases hu : user_exists s user
    case neg => rw [join_err_user (by simpa using hu)]; exact ⟨grp, hg, hc⟩
    rcases hgj : getKey s.groups group_id with _ | group
    · rw [join_err_nogroup hu hgj]; exact ⟨grp, hg, hc⟩
    by_cases hp : group.is_public
    case neg => rw [join_err_private hu hgj (by simpa using hp)]; exact ⟨grp, hg, hc⟩
    by_cases hf : group.member_count < group.max_members
    case neg => rw [join_err_full hu hgj hp (Nat.not_lt.mp hf)]; exact ⟨grp, hg, hc⟩
    by_cases hm : hasKey s.membership (user, group_id)
    · rw [join_err_member hu hgj hp hf hm]; exact ⟨grp, hg, hc⟩
    rw [join_ok hu hgj hp hf (by simpa using hm)]
    by_cases hge : group_id = g
    · subst hge
      rw [hg] at hgj
      cases hgj
      exact ⟨_, getKey_setKey_self _ _ _, by simpa using hc⟩
    · exact ⟨grp, by rw [getKey_setKey_ne _ _ hge]; exact hg, hc⟩
  | contribute user group_id amount hgl ha₁ ha₂ =>
    by_cases ha : amount ≤ 0
    · rw [contribute_err_amount ha]; exact ⟨grp, hg, hc⟩
    have ha' : 0 < amount := Int.not_le.mp ha
    by_cases hu : user_exists s user
    case neg => rw [contribute_err_user ha' (by simpa using hu)]; exact ⟨grp, hg, hc⟩
    by_cases hm : hasKey s.membership (user, group_id)
    case neg => rw [contribute_err_member ha' hu (by simpa using hm)]; exact ⟨grp, hg, hc⟩
    rcases hgj : getKey s.groups group_id with _ | group
    · rw [contribute_err_nogroup ha' hu hm hgj]; exact ⟨grp, hg, hc⟩
    rcases ho : i128CheckedAdd group.current_amount amount with _ | newAmount
    · rw [contribute_err_overflow_group ha' hu hm hgj ho]; exact ⟨grp, hg, hc⟩
    rcases ho' : i128CheckedAdd ((getKey s.contributions (group_id, user)).getD 0) amount
      with _ | newContribution
    · rw [contribute_err_overflow_member ha' hu hm hgj ho ho']; exact ⟨grp, hg, hc⟩
    rw [contribute_ok ha' hu hm hgj ho ho']
    by_cases hge : group_id = g
    · subst hge
      rw [hg] at hgj
      cases hgj
      refine ⟨_, getKey_setKey_self _ _ _, ?_⟩
      by_cases hcc : newAmount ≥ grp.target_amount <;> simp [hcc, hc]
    · exact ⟨grp, by rw [getKey_setKey_ne _ _ hge]; exact hg, hc⟩

/-! ## Claim theorems -/

/-- C1: In every state reachable by any sequence of `create_group_save`,
`join_group_save`, and `contribute_to_group_save` calls, each group's
`current_amount` equals the sum of the `GroupMemberContribution`
accumulators recorded for that group's members.  (The step bound `n <
2^64` keeps the `u64` group-id counter from wrapping; it cannot be reached
by real call sequences.) -/
theorem C1_group_current_amount_is_member_sum {n : Nat} {s : State}
    (h : ReachableN n s) (hn : n < u64Size) :
    ∀ g grp, getKey s.groups g = some grp →
      grp.current_amount = contribSum s.contributions g :=
  (wf_reachable h hn).sum_inv

/-- The state after create(user 1, public, target 100, max 2), join(user 2),
contribute(user 2, amount 40). -/
def c1TraceState : State :=
  (contribute_to_group_save
    ((join_group_save ((create_group_save (initState [1, 2] 0) 1 true 100 2 1).1) 2 1).1)
    2 1 40).1

/-- The group record stored in `c1TraceState`. -/
def c1Group : GroupSave :=
  { group_id := 1, is_public := true, target_amount := 100, current_amount := 40,
    member_count := 2, max_members := 2, contribution_type := 1, creator := 1,
    is_completed := false, created_at := 0 }

set_option maxRecDepth 8000 in
/-- Witness for C1 at a concrete three-operation trace. -/
theorem C1_witness :
    c1Group.current_amount = contribSum c1TraceState.contributions 1 :=
  C1_group_current_amount_is_member_sum
    (ReachableN.step (ReachableN.step (ReachableN.step (ReachableN.init [1, 2] 0)
      (Step.create _ 1 true 100 2 1 (by decide) (by decide) (by decide) (by decide)))
      (Step.join _ 2 1 (by decide)))
      (Step.contribute _ 2 1 40 (by decide) (by decide) (by decide)))
    (by decide) 1 c1Group (by rfl)

/-- C2: in reachable states, once a group's `is_completed` flag is true no
operation ever makes it false again; a successful `contribute_to_group_save`
stores `is_completed = true` exactly when the updated `current_amount`
reaches `target_amount`; and a contribution pushing `current_amount` above
`target_amount` is accepted without capping (success depends only on the
checks and on `i128` overflow, never on the target). -/
theorem C2_completion_sticky_and_threshold {n : Nat} {s : State}
    (h : ReachableN n s) (hn : n + 1 < u64Size) :
    (∀ s' g grp, Step s s' → getKey s.groups g = some grp →
      grp.is_completed = true →
      ∃ grp', getKey s'.groups g = some grp' ∧ grp'.is_completed = true)
    ∧ (∀ user g amount grp, getKey s.groups g = some grp →
      (contribute_to_group_save s user g amount).2 = .ok () →
      ∃ grp', getKey (contribute_to_group_save s user g amount).1.groups g = some grp'
        ∧ grp'.current_amount = grp.current_amount + amount
        ∧ (grp'.is_completed = true ↔ grp.target_amount ≤ grp'.current_amount))
    ∧ (∀ user g amount grp, 0 < amount → user_exists s user = true →
      hasKey s.membership (user, g) = true → getKey s.groups g = some grp →
      grp.current_amount + amount ≤ i128Max →
      get_member_contribution s g user + amount ≤ i128Max →
      (contribute_to_group_save s user g amount).2 = .ok ()) := by
  have hwf := wf_reachable h (by omega)
  have hcnt : counterVal s + 1 < u64Size := by
    have := counterVal_reachable h
    omega
  refine ⟨fun s' g grp hstep hg hc => completed_mono_step hwf hcnt hstep hg hc, ?_, ?_⟩
  · intro user g amount grp hg hok
    by_cases ha : amount ≤ 0
    · rw [contribute_err_amount ha] at hok; simp at hok
    have ha' : 0 < amount := Int.not_le.mp ha
    by_cases hu : user_exists s user
    case neg => rw [contribute_err_user ha' (by simpa using hu)] at hok; simp at hok
    by_cases hm : hasKey s.membership (user, g)
    case neg => rw [contribute_err_member ha' hu (by simpa using hm)] at hok; simp at hok
    rcases ho : i128CheckedAdd grp.current_amount amount with _ | newAmount
    · rw [contribute_err_overflow_group ha' hu hm hg ho] at hok; simp at hok
    rcases ho' : i128CheckedAdd ((getKey s.contributions (g, user)).getD 0) amount
      with _ | newContribution
    · rw [contribute_err_overflow_member ha' hu hm hg ho ho'] at hok; simp at hok
    rw [contribute_ok ha' hu hm hg ho ho']
    have hnewA : newAmount = grp.current_amount + amount := i128CheckedAdd_some ho
    subst hnewA
    refine ⟨_, getKey_setKey_self _ _ _, ?_, ?_⟩
    · by_cases hcc : grp.current_amount + amount ≥ grp.target_amount <;> simp [hcc]
    · by_cases hcc : grp.current_amount + amount ≥ grp.target_amount
      · simp [hcc]
      · simp [hcc]
        cases hcomp : grp.is_completed with
        | false => rfl
        | true =>
          exfalso
          have := hwf.completed_target _ _ hg hcomp
          omega
  · intro user g amount grp ha hu hm hg hb1 hb2
    obtain ⟨old, hold⟩ : ∃ old, getKey s.contributions (g, user) = some old := by
      have h1 := hwf.memb_iff_contrib user g
      rw [hm] at h1
      exact Option.isSome_iff_exists.mp h1.symm
    have hoc : (0 : Int) ≤ old := hwf.contrib_nonneg _ (getKey_some_mem hold)
    have hcn : (0 : Int) ≤ grp.current_amount := current_nonneg hwf hg
    have hmin : i128Min ≤ (0 : Int) := by norm_num [i128Min]
    have hgmc : get_member_contribution s g user = old := by
      simp [get_member_contribution, hold]
    rw [hgmc] at hb2
    have ho : i128CheckedAdd grp.current_amount amount =
        some (grp.current_amount + amount) :=
      i128CheckedAdd_eq_some (by omega) hb1
    have ho' : i128CheckedAdd ((getKey s.contributions (g, user)).getD 0) amount =
        some (old + amount) := by
      rw [hold, Option.getD_some]
      exact i128CheckedAdd_eq_some (by omega) hb2
    rw [contribute_ok ha hu hm hg ho ho']

/-- The state after user 1 creates a public group with target 100 and
room for 5 members. -/
def c2State : State :=
  (create_group_save (initState [1] 0) 1 true 100 5 1).1

/-- The group record stored in `c2State`. -/
def c2Group : GroupSave :=
  { group_id := 1, is_public := true, target_amount := 100, current_amount := 0,
    member_count := 1, max_members := 5, contribution_type := 1, creator := 1,
    is_completed := false, created_at := 0 }

set_option maxRecDepth 8000 in
/-- Witness for C2: a contribution of 150 against a target of 100 is
accepted (excess above the target is neither capped nor rejected). -/
theorem C2_witness : (contribute_to_group_save c2State 1 1 150).2 = .ok () :=
  (C2_completion_sticky_and_threshold
      (ReachableN.step (ReachableN.init [1] 0)
        (Step.create _ 1 true 100 5 1 (by decide) (by decide) (by decide) (by decide)))
      (by decide)).2.2 1 1 150 c2Group (by decide) (by rfl) (by rfl) (by rfl)
    (by decide) (by decide)

/-- C3: `join_group_save` performs its failure checks in the fixed order
`UserNotFound` (user unregistered), `PlanNotFound` (group id absent),
`NotGroupMember` (group private, for every caller), `GroupFull`
(`member_count >= max_members`), `UserAlreadyExists` (membership flag
present), returning the first matching error. -/
theorem C3_join_check_order (s : State) (user : Address) (group_id : Nat) :
    (user_exists s user = false →
      join_group_save s user group_id = (s, .error .UserNotFound))
    ∧ (user_exists s user = true → getKey s.groups group_id = none →
      join_group_save s user group_id = (s, .error .PlanNotFound))
    ∧ (∀ group, user_exists s user = true →
      getKey s.groups group_id = some group → group.is_public = false →
      join_group_save s user group_id = (s, .error .NotGroupMember))
    ∧ (∀ group, user_exists s user = true →
      getKey s.groups group_id = some group → group.is_public = true →
      group.max_members ≤ group.member_count →
      join_group_save s user group_id = (s, .error .GroupFull))
    ∧ (∀ group, user_exists s user = true →
      getKey s.groups group_id = some group → group.is_public = true →
      group.member_count < group.max_members →
      hasKey s.membership (user, group_id) = true →
      join_group_save s user group_id = (s, .error .UserAlreadyExists)) :=
  ⟨fun hu => join_err_user hu,
   fun hu hg => join_err_nogroup hu hg,
   fun _ hu hg hp => join_err_private hu hg hp,
   fun _ hu hg hp hf => join_err_full hu hg hp hf,
   fun _ hu hg hp hf hm => join_err_member hu hg hp hf hm⟩

/-- Witness for C3: an unregistered user's join attempt fails with
`UserNotFound`. -/
theorem C3_witness :
    join_group_save (initState [] 0) 5 1 = (initState [] 0, .error .UserNotFound) :=
  (C3_join_check_order (initState [] 0) 5 1).1 (by decide)

/-- The state after user 1 creates a public group with `max_members = 2`. -/
def c4State1 : State :=
  (create_group_save (initState [1, 2, 3] 0) 1 true 100 2 1).1

/-- `c4State1` after the one non-creator join that capacity admits. -/
def c4State2 : State :=
  (join_group_save c4State1 2 1).1

/-- The full group stored in `c4State2`. -/
def c4Group : GroupSave :=
  { group_id := 1, is_public := true, target_amount := 100, current_amount := 0,
    member_count := 2, max_members := 2, contribution_type := 1, creator := 1,
    is_completed := false, created_at := 0 }

set_option maxRecDepth 8000 in
/-- C4: every reachable group state satisfies
`member_count ≤ max_members`; concretely, a group created with
`max_members = 2` accepts exactly one non-creator join (user 2 succeeds)
and the next non-creator join (user 3) fails `GroupFull`. -/
theorem C4_capacity_enforced {n : Nat} {s : State} (h : ReachableN n s)
    (hn : n < u64Size) :
    (∀ g grp, getKey s.groups g = some grp →
      grp.member_count ≤ grp.max_members)
    ∧ (join_group_save c4State1 2 1).2 = .ok ()
    ∧ getKey c4State2.groups 1 = some c4Group
    ∧ (join_group_save c4State2 3 1).2 = .error .GroupFull :=
  ⟨(wf_reachable h hn).mc_le, by rfl, by rfl, by rfl⟩

set_option maxRecDepth 8000 in
/-- Witness for C4 at the concrete two-member group. -/
theorem C4_witness : c4Group.member_count ≤ c4Group.max_members :=
  (C4_capacity_enforced
    (ReachableN.step (ReachableN.step (ReachableN.init [1, 2, 3] 0)
      (Step.create _ 1 true 100 2 1 (by decide) (by decide) (by decide) (by decide)))
      (Step.join _ 2 1 (by decide)))
    (by decide)).1 1 c4Group (by rfl)

/-- C5: for every registered user and every existing group with
`is_public = false`, `join_group_save` fails with `NotGroupMember`,
regardless of which caller attempts it (the statement quantifies over all
callers, including the creator and existing members, since the privacy
check precedes the membership check). -/
theorem C5_private_group_join_fails (s : State) (user : Address)
    (group_id : Nat) (group : GroupSave)
    (hu : user_exists s user = true)
    (hg : getKey s.groups group_id = some group)
    (hp : group.is_public = false) :
    join_group_save s user group_id = (s, .error .NotGroupMember) :=
  join_err_private hu hg hp

/-- The state after user 1 creates a private group. -/
def c5TraceState : State :=
  (create_group_save (initState [1] 0) 1 false 100 5 1).1

/-- The private group stored in `c5TraceState`. -/
def c5Group : GroupSave :=
  { group_id := 1, is_public := false, target_amount := 100, current_amount := 0,
    member_count := 1, max_members := 5, contribution_type := 1, creator := 1,
    is_completed := false, created_at := 0 }

/-- Witness for C5: even the creator of the private group, who is already
a member, fails with `NotGroupMember` when joining it. -/
theorem C5_witness :
    join_group_save c5TraceState 1 1 = (c5TraceState, .error .NotGroupMember) :=
  C5_private_group_join_fails c5TraceState 1 1 c5Group (by decide) (by decide)
    (by decide)

/-- C6: `contribute_to_group_save` performs its checks in the fixed order
`InvalidAmount` (`amount ≤ 0`), `UserNotFound`, `NotGroupMember` (no
membership flag), `PlanNotFound` (group record missing), returning the
first matching error; on the remaining path it applies checked addition
to both the group's `current_amount` and the caller's own accumulator,
failing `Overflow` (on either addition) instead of wrapping, and on
success stores both updated values. -/
theorem C6_contribute_check_order (s : State) (user : Address) (group_id : Nat)
    (amount : Int) :
    (amount ≤ 0 →
      contribute_to_group_save s user group_id amount = (s, .error .InvalidAmount))
    ∧ (0 < amount → user_exists s user = false →
      contribute_to_group_save s user group_id amount = (s, .error .UserNotFound))
    ∧ (0 < amount → user_exists s user = true →
      hasKey s.membership (user, group_id) = false →
      contribute_to_group_save s user group_id amount = (s, .error .NotGroupMember))
    ∧ (0 < amount → user_exists s user = true →
      hasKey s.membership (user, group_id) = true →
      getKey s.groups group_id = none →
      contribute_to_group_save s user group_id amount = (s, .error .PlanNotFound))
    ∧ (∀ grp, 0 < amount → user_exists s user = true →
      hasKey s.membership (user, group_id) = true →
      getKey s.groups group_id = some grp →
      i128CheckedAdd grp.current_amount amount = none →
      contribute_to_group_save s user group_id amount = (s, .error .Overflow))
    ∧ (∀ grp newAmount, 0 < amount → user_exists s user = true →
      hasKey s.membership (user, group_id) = true →
      getKey s.groups group_id = some grp →
      i128CheckedAdd grp.current_amount amount = some newAmount →
      i128CheckedAdd (get_member_contribution s group_id user) amount = none →
      contribute_to_group_save s user group_id amount = (s, .error .Overflow))
    ∧ (∀ grp newAmount newContribution, 0 < amount → user_exists s user = true →
      hasKey s.membership (user, group_id) = true →
      getKey s.groups group_id = some grp →
      i128CheckedAdd grp.current_amount amount = some newAmount →
      i128CheckedAdd (get_member_contribution s group_id user) amount
        = some newContribution →
      (contribute_to_group_save s user group_id amount).2 = .ok ()
      ∧ newAmount = grp.current_amount + amount
      ∧ newContribution = get_member_contribution s group_id user + amount
      ∧ (∃ grp', getKey (contribute_to_group_save s user group_id amount).1.groups
          group_id = some grp' ∧ grp'.current_amount = newAmount)
      ∧ getKey (contribute_to_group_save s user group_id amount).1.contributions
          (group_id, user) = some newContribution) := by
  refine ⟨fun ha => contribute_err_amount ha,
    fun ha hu => contribute_err_user ha hu,
    fun ha hu hm => contribute_err_member ha hu hm,
    fun ha hu hm hg => contribute_err_nogroup ha hu hm hg,
    fun grp ha hu hm hg ho => contribute_err_overflow_group ha hu hm hg ho,
    fun grp newAmount ha hu hm hg ho ho' =>
      contribute_err_overflow_member ha hu hm hg ho ho',
    ?_⟩
  intro grp newAmount newContribution ha hu hm hg ho ho'
  have h1 : newAmount = grp.current_amount + amount := i128CheckedAdd_some ho
  have h2 : newContribution = get_member_contribution s group_id user + amount :=
    i128CheckedAdd_some ho'
  rw [contribute_ok ha hu hm hg ho ho']
  subst h1
  refine ⟨rfl, rfl, h2, ⟨_, getKey_setKey_self _ _ _, ?_⟩, getKey_setKey_self _ _ _⟩
  by_cases hcc : grp.current_amount + amount ≥ grp.target_amount <;> simp [hcc]

/-- Witness for C6: a non-positive contribution amount fails with
`InvalidAmount`. -/
theorem C6_witness :
    contribute_to_group_save (initState [] 0) 1 1 0 =
      (initState [] 0, .error .InvalidAmount) :=
  (C6_contribute_check_order (initState [] 0) 1 1 0).1 (by decide)

/-- C8: `get_member_contribution` returns 0 whenever no contribution
record exists for `(group_id, user)`, and otherwise returns the stored
accumulator; a never-contributed user is indistinguishable from one whose
stored accumulator is exactly 0. -/
theorem C8_get_member_contribution_zero_default (s : State) (group_id : Nat)
    (user : Address) :
    (getKey s.contributions (group_id, user) = none →
      get_member_contribution s group_id user = 0)
    ∧ (∀ v, getKey s.contributions (group_id, user) = some v →
      get_member_contribution s group_id user = v) := by
  constructor
  · intro h
    simp [get_member_contribution, h]
  · intro v h
    simp [get_member_contribution, h]

/-- Witness for C8: in a store with no contribution records at all, the
lookup returns 0. -/
theorem C8_witness : get_member_contribution (initState [] 0) 1 2 = 0 :=
  (C8_get_member_contribution_zero_default (initState [] 0) 1 2).1 (by decide)

/-- C7: `create_group_save` fails `InvalidAmount` when
`target_amount ≤ 0`, `InvalidGroupConfig` when `max_members = 0`, and
`UserNotFound` when the creator is unregistered; on success it allocates
the next id from the dedicated group counter (0 in the initial state, so
ids start at 1 and successive successful calls return strictly increasing
ids), and stores the group with `member_count = 1`, `current_amount = 0`,
`is_completed = false`, together with the creator's membership flag and a
zero contribution accumulator.  (The `counterVal` bounds keep the `u64`
counter addition from wrapping.) -/
theorem C7_create_group_save_spec (s : State) (creator : Address)
    (is_public : Bool) (target_amount : Int)
    (max_members contribution_type : Nat) :
    (target_amount ≤ 0 →
      create_group_save s creator is_public target_amount max_members
        contribution_type = (s, .error .InvalidAmount))
    ∧ (0 < target_amount → max_members = 0 →
      create_group_save s creator is_public target_amount max_members
        contribution_type = (s, .error .InvalidGroupConfig))
    ∧ (0 < target_amount → max_members ≠ 0 → user_exists s creator = false →
      create_group_save s creator is_public target_amount max_members
        contribution_type = (s, .error .UserNotFound))
    ∧ (∀ users now, counterVal (initState users now) = 0)
    ∧ (0 < target_amount → max_members ≠ 0 → user_exists s creator = true →
      counterVal s + 1 < u64Size →
      (create_group_save s creator is_public target_amount max_members
        contribution_type).2 = .ok (counterVal s + 1)
      ∧ counterVal (create_group_save s creator is_public target_amount max_members
          contribution_type).1 = counterVal s + 1
      ∧ getKey (create_group_save s creator is_public target_amount max_members
          contribution_type).1.groups (counterVal s + 1) = some
          { group_id := counterVal s + 1, is_public := is_public,
            target_amount := target_amount, current_amount := 0,
            member_count := 1, max_members := max_members,
            contribution_type := contribution_type, creator := creator,
            is_completed := false, created_at := s.now }
      ∧ hasKey (create_group_save s creator is_public target_amount max_members
          contribution_type).1.membership (creator, counterVal s + 1) = true
      ∧ getKey (create_group_save s creator is_public target_amount max_members
          contribution_type).1.contributions (counterVal s + 1, creator) = some 0)
    ∧ (∀ creator₂ is_public₂ target₂ max₂ ctype₂,
      0 < target_amount → max_members ≠ 0 → user_exists s creator = true →
      0 < target₂ → max₂ ≠ 0 → user_exists s creator₂ = true →
      counterVal s + 2 < u64Size →
      (create_group_save s creator is_public target_amount max_members
        contribution_type).2 = .ok (counterVal s + 1)
      ∧ (create_group_save (create_group_save s creator is_public target_amount
          max_members contribution_type).1 creator₂ is_public₂ target₂ max₂
          ctype₂).2 = .ok (counterVal s + 2)) := by
  refine ⟨fun ht => create_err_target ht,
    fun ht hm => create_err_config ht hm,
    fun ht hm hu => create_err_user ht hm hu,
    fun users now => rfl, ?_, ?_⟩
  · intro ht hm hu hcnt
    have hgid : newGroupId s = counterVal s + 1 := Nat.mod_eq_of_lt hcnt
    rw [create_ok ht hm hu]
    refine ⟨by simp [hgid], by simp [counterVal, hgid], ?_, ?_, ?_⟩
    · rw [← hgid, getKey_setKey_self]
      simp [createdGroup, hgid]
    · rw [← hgid, hasKey_setKey]
      simp
    · rw [← hgid, getKey_setKey_self]
  · intro creator₂ is_public₂ target₂ max₂ ctype₂ ht hm hu ht₂ hm₂ hu₂ hcnt2
    have hcnt1 : counterVal s + 1 < u64Size := by omega
    have hgid : newGroupId s = counterVal s + 1 := Nat.mod_eq_of_lt hcnt1
    refine ⟨by rw [create_ok ht hm hu]; simp [hgid], ?_⟩
    rw [create_ok ht hm hu]
    rw [create_ok ht₂ hm₂ (by exact hu₂)]
    have h22 : (newGroupId s + 1) % u64Size = counterVal s + 2 := by
      rw [hgid, Nat.mod_eq_of_lt (by omega)]
    simp only [newGroupId, counterVal, Option.getD_some] at h22 ⊢
    simp [h22]

/-- Witness for C7: the first create in a fresh store returns group
id 1. -/
theorem C7_witness :
    (create_group_save (initState [1] 0) 1 true 100 2 1).2 = .ok 1 :=
  ((C7_create_group_save_spec (initState [1] 0) 1 true 100 2 1).2.2.2.2.1
    (by decide) (by decide) (by decide) (by decide)).1

/-- C9: whenever `join_group_save` or `contribute_to_group_save` returns
an error, the returned store is exactly the input store: every validation
and every fallible checked addition occurs before the first storage
write. -/
theorem C9_failure_leaves_state_unchanged (s : State) (user : Address)
    (group_id : Nat) (amount : Int) :
    (∀ e, (join_group_save s user group_id).2 = .error e →
      (join_group_save s user group_id).1 = s)
    ∧ (∀ e, (contribute_to_group_save s user group_id amount).2 = .error e →
      (contribute_to_group_save s user group_id amount).1 = s) := by
  constructor
  · intro e he
    by_cases hu : user_exists s user
    case neg => rw [join_err_user (by simpa using hu)]
    rcases hg : getKey s.groups group_id with _ | group
    · rw [join_err_nogroup hu hg]
    by_cases hp : group.is_public
    case neg => rw [join_err_private hu hg (by simpa using hp)]
    by_cases hf : group.member_count < group.max_members
    case neg => rw [join_err_full hu hg hp (Nat.not_lt.mp hf)]
    by_cases hm : hasKey s.membership (user, group_id)
    · rw [join_err_member hu hg hp hf hm]
    · rw [join_ok hu hg hp hf (by simpa using hm)] at he
      simp at he
  · intro e he
    by_cases ha : amount ≤ 0
    · rw [contribute_err_amount ha]
    have ha' : 0 < amount := Int.not_le.mp ha
    by_cases hu : user_exists s user
    case neg => rw [contribute_err_user ha' (by simpa using hu)]
    by_cases hm : hasKey s.membership (user, group_id)
    case neg => rw [contribute_err_member ha' hu (by simpa using hm)]
    rcases hg : getKey s.groups group_id with _ | group
    · rw [contribute_err_nogroup ha' hu hm hg]
    rcases ho : i128CheckedAdd group.current_amount amount with _ | newAmount
    · rw [contribute_err_overflow_group ha' hu hm hg ho]
    rcases ho' : i128CheckedAdd ((getKey s.contributions (group_id, user)).getD 0) amount
      with _ | newContribution
    · rw [contribute_err_overflow_member ha' hu hm hg ho ho']
    · rw [contribute_ok ha' hu hm hg ho ho'] at he
      simp at he

/-- Witness for C9: a join by an unregistered user errors and returns the
input store unchanged. -/
theorem C9_witness :
    (join_group_save (initState [] 0) 5 1).1 = initState [] 0 :=
  (C9_failure_leaves_state_unchanged (initState [] 0) 5 1 7).1 .UserNotFound
    (by rfl)

/-- The state after user 1 creates a public group with room for 3
members. -/
def c10State : State :=
  (create_group_save (initState [1, 2] 0) 1 true 100 3 1).1

/-- The group stored in `c10State`. -/
def c10Group : GroupSave :=
  { group_id := 1, is_public := true, target_amount := 100, current_amount := 0,
    member_count := 1, max_members := 3, contribution_type := 1, creator := 1,
    is_completed := false, created_at := 0 }

/-- C10: the unchecked `member_count += 1` in `join_group_save` cannot
overflow the `u32` counter: it runs only after the `GroupFull` check has
established `member_count < max_members`, and in every reachable state
`max_members` fits in a `u32`, so the incremented value stays in range
(the modular increment equals the exact one) and is what gets stored. -/
theorem C10_member_count_increment_safe {n : Nat} {s : State}
    (h : ReachableN n s) (hn : n < u64Size) (user : Address) (g : Nat)
    (grp : GroupSave) (hg : getKey s.groups g = some grp)
    (hok : (join_group_save s user g).2 = .ok ()) :
    grp.member_count < grp.max_members
    ∧ grp.member_count + 1 < u32Size
    ∧ (grp.member_count + 1) % u32Size = grp.member_count + 1
    ∧ getKey (join_group_save s user g).1.groups g =
        some { grp with member_count := grp.member_count + 1 } := by
  have hwf := wf_reachable h hn
  by_cases hu : user_exists s user
  case neg => rw [join_err_user (by simpa using hu)] at hok; simp at hok
  by_cases hp : grp.is_public
  case neg => rw [join_err_private hu hg (by simpa using hp)] at hok; simp at hok
  by_cases hf : grp.member_count < grp.max_members
  case neg => rw [join_err_full hu hg hp (Nat.not_lt.mp hf)] at hok; simp at hok
  by_cases hm : hasKey s.membership (user, g)
  · rw [join_err_member hu hg hp hf hm] at hok; simp at hok
  have hlt : grp.member_count + 1 < u32Size :=
    lt_of_le_of_lt (Nat.succ_le_of_lt hf) (hwf.max_lt _ _ hg)
  have hmod : (grp.member_count + 1) % u32Size = grp.member_count + 1 :=
    Nat.mod_eq_of_lt hlt
  refine ⟨hf, hlt, hmod, ?_⟩
  rw [join_ok hu hg hp hf (by simpa using hm), getKey_setKey_self]
  simp [hmod]

set_option maxRecDepth 8000 in
/-- Witness for C10: joining the concrete three-member-capacity group
increments the count to exactly 2, without wrapping. -/
theorem C10_witness :
    getKey (join_group_save c10State 2 1).1.groups 1 =
      some { c10Group with member_count := 2 } :=
  (C10_member_count_increment_safe
    (ReachableN.step (ReachableN.init [1, 2] 0)
      (Step.create _ 1 true 100 3 1 (by decide) (by decide) (by decide) (by decide)))
    (by decide) 2 1 c10Group (by rfl) (by rfl)).2.2.2

end Nestera
